import Mathlib

/-!
Verification development for the Metrics-collection-system repository.

Shallow embedding of the C++ sources:
* `TypedMetricValue<T>` / `TypedMetric<T>` (MetricSystem.h, MetricSystem.cpp),
* `MetricCollector` (registerMetric / recordMetric / collectCurrentMetrics),
* `MetricWriter::writeMetrics`,
* `MetricRegistry` and `MetricNameValidator` (MetricUtilities.cpp).

Modelling conventions:
* C++ floating-point values (`double`, `float`) are modelled as exact
  rationals `ℚ`; integral values (`int`, `long`) as unbounded `ℤ`
  (signed overflow is undefined behaviour in the source and not modelled).
* A `std::unique_ptr<MetricValue>` return is modelled as `Option`: the
  functions return `some _` in every branch, mirroring `make_unique`
  never returning null, while the caller's null test stays visible.
* Exceptions are modelled as `Except`/`Option String` error results; a
  function that mutates state and may throw returns the state it leaves
  behind together with the error.
* Timestamps are abstract: the flush cycle receives the already formatted
  timestamp string (timestamp formatting is an external collaborator).
* `std::cerr` logging is modelled as an explicit list of log lines.
-/

namespace MetricsSystem

/-- Numeric kind of a metric: one tag per explicit template instantiation
of `TypedMetric` in MetricSystem.cpp (`int`, `long`, `double`, `float`). -/
inductive MKind : Type
  | mInt
  | mLong
  | mDouble
  | mFloat
deriving DecidableEq

/-- `std::is_floating_point_v<T>` for the four instantiated kinds. -/
def MKind.isFloating : MKind → Bool
  | .mDouble => true
  | .mFloat => true
  | .mInt => false
  | .mLong => false

/-- `TypedMetricValue<T>` data: running value plus sample count
(MetricSystem.h lines 37-53). -/
structure TypedMetricValue (α : Type) where
  value : α
  count : Nat
deriving DecidableEq

/-- The `TypedMetricValue(T value = T\x7b\x7d)` constructor:
`count_(value != T\x7b\x7d ? 1 : 0)` (MetricSystem.h line 44). -/
def TypedMetricValue.mkCpp {α : Type} [Zero α] [DecidableEq α]
    (v : α) : TypedMetricValue α :=
  { value := v, count := if v ≠ 0 then 1 else 0 }

/-- `TypedMetricValue<T>::getValue` for fractional `T`:
`count_ > 0 ? value_ / static_cast<T>(count_) : T\x7b\x7d`. -/
def TypedMetricValue.getValueQ (tv : TypedMetricValue ℚ) : ℚ :=
  if tv.count > 0 then tv.value / (tv.count : ℚ) else 0

/-- `TypedMetricValue<T>::getValue` for integral `T`; C++ `/` on integers
truncates toward zero, which is `Int.tdiv`. -/
def TypedMetricValue.getValueZ (tv : TypedMetricValue ℤ) : ℤ :=
  if tv.count > 0 then tv.value.tdiv (tv.count : ℤ) else 0

/-- Two-digit decimal rendering of a natural number below 100. -/
def twoDigits (k : Nat) : String :=
  if k < 10 then "0" ++ toString k else toString k

/-- `std::fixed << std::setprecision(2)` rendering, modelled on exact
rationals: round the value to the nearest hundredth (the source formats a
binary `double`; the tie-breaking rule is immaterial to every claim). -/
def formatFixed2 (q : ℚ) : String :=
  let n : ℤ := round (q * 100)
  let a : Nat := n.natAbs
  (if n < 0 then "-" else "") ++ toString (a / 100) ++ "." ++ twoDigits (a % 100)

/-- `TypedMetricValue<T>::toString` for fractional `T`
(MetricSystem.cpp lines 10-23): `"0"` when the count is zero, otherwise
the fixed 2-decimal rendering of `getValue()`. -/
def TypedMetricValue.toStringQ (tv : TypedMetricValue ℚ) : String :=
  if tv.count = 0 then "0" else formatFixed2 tv.getValueQ

/-- `TypedMetricValue<T>::toString` for integral `T`: `"0"` when the count
is zero, otherwise plain decimal of `getValue()`. -/
def TypedMetricValue.toStringZ (tv : TypedMetricValue ℤ) : String :=
  if tv.count = 0 then "0" else toString tv.getValueZ

/-- `TypedMetric<T>` accumulator state: name, running total, sample count
(MetricSystem.h lines 76-95). Each operation on it is a single critical
section under the metric's own mutex, so interleavings of the concurrent
system happen only at the granularity of these operations. -/
structure TypedMetric (α : Type) where
  name : String
  accumulated : α
  count : Nat
deriving DecidableEq

/-- The `TypedMetric(name)` constructor: zero total, zero count. -/
def TypedMetric.mkFresh {α : Type} [Zero α] (name : String) : TypedMetric α :=
  { name := name, accumulated := 0, count := 0 }

/-- `TypedMetric<T>::recordValue(T)` (MetricSystem.cpp lines 63-68):
add to the running total, increment the count. -/
def TypedMetric.recordValue {α : Type} [Add α]
    (m : TypedMetric α) (v : α) : TypedMetric α :=
  { m with accumulated := m.accumulated + v, count := m.count + 1 }

/-- A sequence of `recordValue` calls, in order. -/
def TypedMetric.recordList {α : Type} [Add α]
    (m : TypedMetric α) (vs : List α) : TypedMetric α :=
  vs.foldl TypedMetric.recordValue m

/-- `TypedMetric<T>::reset` (MetricSystem.cpp lines 89-94). -/
def TypedMetric.reset {α : Type} [Zero α] (m : TypedMetric α) : TypedMetric α :=
  { m with accumulated := 0, count := 0 }

/-- `TypedMetric<T>::getAccumulatedValue` for fractional `T`
(MetricSystem.cpp lines 70-87): with no samples return a value built from
`T\x7b\x7d`; otherwise return the arithmetic mean. Every branch returns
`some` (`make_unique` never yields null). -/
def TypedMetric.getAccumulatedValueQ (m : TypedMetric ℚ) :
    Option (TypedMetricValue ℚ) :=
  if m.count = 0 then some (TypedMetricValue.mkCpp 0)
  else some (TypedMetricValue.mkCpp (m.accumulated / (m.count : ℚ)))

/-- `TypedMetric<T>::getAccumulatedValue` for integral `T`: with no samples
a value built from `T\x7b\x7d`, otherwise the raw total. -/
def TypedMetric.getAccumulatedValueZ (m : TypedMetric ℤ) :
    Option (TypedMetricValue ℤ) :=
  if m.count = 0 then some (TypedMetricValue.mkCpp 0)
  else some (TypedMetricValue.mkCpp m.accumulated)

/-- A metric with its dynamic type: the collector stores
`std::vector<std::unique_ptr<Metric>>` whose elements are one of the four
`TypedMetric<T>` instantiations. -/
inductive AnyMetric : Type
  | intM (m : TypedMetric ℤ)
  | longM (m : TypedMetric ℤ)
  | doubleM (m : TypedMetric ℚ)
  | floatM (m : TypedMetric ℚ)
deriving DecidableEq

/-- A snapshot value with its dynamic type. -/
inductive AnyValue : Type
  | zVal (tv : TypedMetricValue ℤ)
  | qVal (tv : TypedMetricValue ℚ)
deriving DecidableEq

/-- Virtual `MetricValue::toString` dispatch. -/
def AnyValue.render : AnyValue → String
  | .zVal tv => tv.toStringZ
  | .qVal tv => tv.toStringQ

/-- Virtual `Metric::getName` dispatch. -/
def AnyMetric.getName : AnyMetric → String
  | .intM m => m.name
  | .longM m => m.name
  | .doubleM m => m.name
  | .floatM m => m.name

/-- Virtual `Metric::reset` dispatch. -/
def AnyMetric.reset : AnyMetric → AnyMetric
  | .intM m => .intM m.reset
  | .longM m => .longM m.reset
  | .doubleM m => .doubleM m.reset
  | .floatM m => .floatM m.reset

/-- Virtual `Metric::getAccumulatedValue` dispatch. -/
def AnyMetric.getAccumulatedValue : AnyMetric → Option AnyValue
  | .intM m => (m.getAccumulatedValueZ).map AnyValue.zVal
  | .longM m => (m.getAccumulatedValueZ).map AnyValue.zVal
  | .doubleM m => (m.getAccumulatedValueQ).map AnyValue.qVal
  | .floatM m => (m.getAccumulatedValueQ).map AnyValue.qVal

/-- `std::make_unique<TypedMetric<T>>(name)` for each kind `T`. -/
def newMetric (k : MKind) (name : String) : AnyMetric :=
  match k with
  | .mInt => .intM (TypedMetric.mkFresh name)
  | .mLong => .longM (TypedMetric.mkFresh name)
  | .mDouble => .doubleM (TypedMetric.mkFresh name)
  | .mFloat => .floatM (TypedMetric.mkFresh name)

/-- A value offered to `recordMetric<T>`: the static type `T` of the call
site together with the value. -/
inductive Sample : Type
  | sInt (v : ℤ)
  | sLong (v : ℤ)
  | sDouble (v : ℚ)
  | sFloat (v : ℚ)
deriving DecidableEq

/-- The kind `T` a sample's call site instantiates `recordMetric<T>` with. -/
def Sample.kind : Sample → MKind
  | .sInt _ => .mInt
  | .sLong _ => .mLong
  | .sDouble _ => .mDouble
  | .sFloat _ => .mFloat

/-- Whether `dynamic_cast<TypedMetric<T>*>` succeeds: the metric's dynamic
type must be exactly `TypedMetric<T>` for the sample's `T`. -/
def Sample.compatible : Sample → AnyMetric → Bool
  | .sInt _, .intM _ => true
  | .sLong _, .longM _ => true
  | .sDouble _, .doubleM _ => true
  | .sFloat _, .floatM _ => true
  | _, _ => false

/-- The cast-then-record step of `MetricCollector::recordMetric`
(part_000 lines 80-90): if the `dynamic_cast` succeeds, record; otherwise
the pointer is null and the `if (typed_metric)` body is skipped, leaving
the metric untouched. -/
def Sample.tryRecord : Sample → AnyMetric → AnyMetric
  | .sInt v, .intM m => .intM (m.recordValue v)
  | .sLong v, .longM m => .longM (m.recordValue v)
  | .sDouble v, .doubleM m => .doubleM (m.recordValue v)
  | .sFloat v, .floatM m => .floatM (m.recordValue v)
  | _, m => m

/-- `MetricNameValidator::isValidName` (MetricUtilities.cpp lines 109-122):
non-empty and free of quote and control characters. -/
def MetricNameValidator.isValidName (name : String) : Bool :=
  !name.isEmpty && name.toList.all fun c => !(c == '"' || c.toNat < 32)

/-- `MetricNameValidator::formatNameForOutput` (MetricUtilities.cpp
lines 124-130): throws on an invalid name (`none`), otherwise wraps the
name in double quotes. -/
def MetricNameValidator.formatNameForOutput (name : String) : Option String :=
  if MetricNameValidator.isValidName name then some ("\"" ++ name ++ "\"")
  else none

/-- A `MetricEntry` (MetricSystem.h lines 56-63); the timestamp is carried
as its formatted string. -/
structure MetricEntry where
  timestamp : String
  name : String
  value : AnyValue
deriving DecidableEq

/-- Serialization of one entry inside the `writeMetrics` loop
(MetricSystem.cpp lines 149-165): format the timestamp, then the name
(which throws on an invalid name), then the value; `none` models the
thrown-and-caught case. -/
def serializeEntry (e : MetricEntry) : Option String :=
  match MetricNameValidator.formatNameForOutput e.name with
  | none => none
  | some fn => some (e.timestamp ++ " " ++ fn ++ " " ++ e.value.render)

/-- The `for (const auto& entry : entries)` loop of `writeMetrics`:
returns the lines written to the sink and the `std::cerr` log lines; a
failing entry is skipped (`continue`) after logging. -/
def writeLoop : List MetricEntry → List String × List String
  | [] => ([], [])
  | e :: rest =>
    let p := writeLoop rest
    match serializeEntry e with
    | some line => (line :: p.1, p.2)
    | none => (p.1, ("Error formatting metric entry " ++ e.name) :: p.2)

/-- `MetricWriter::writeMetrics` (MetricSystem.cpp lines 134-169): empty
input returns at once without flushing; a closed file throws; otherwise
the loop runs and `file_stream_.flush()` is performed before returning.
Result: written lines, log lines, and whether the sink-level flush ran. -/
def MetricWriter.writeMetrics (isOpen : Bool) (entries : List MetricEntry) :
    Except String (List String × List String × Bool) :=
  if entries.isEmpty then .ok ([], [], false)
  else if isOpen then
    let p := writeLoop entries
    .ok (p.1, p.2, true)
  else .error "Output file is not open"

/-- `MetricCollector` state relevant to the claims: the owned metric list
and the `running_` flag. -/
structure CollectorState where
  metrics : List AnyMetric
  running : Bool
deriving DecidableEq

/-- `MetricCollector::registerMetric<T>` (part_000 lines 22-39): under the
metrics mutex, fail with a conflict error if the name is already present
(state untouched, the exception is thrown before `push_back`), otherwise
append a fresh `TypedMetric<T>`. No name validation is performed here. -/
def MetricCollector.registerMetric (k : MKind) (name : String)
    (st : CollectorState) : CollectorState × Option String :=
  if st.metrics.any (fun m => m.getName == name) then
    (st, some ("Metric already registered: " ++ name))
  else
    ({ st with metrics := st.metrics ++ [newMetric k name] }, none)

/-- The `std::find_if` lookup by name used by the collector. -/
def lookupMetric (name : String) (ms : List AnyMetric) : Option AnyMetric :=
  ms.find? fun m => m.getName == name

/-- Apply `f` to the first metric whose name matches, leaving the rest
unchanged: the in-place mutation of the pointee found by `find_if`. -/
def updateFirst (name : String) (f : AnyMetric → AnyMetric) :
    List AnyMetric → List AnyMetric
  | [] => []
  | m :: rest =>
    if m.getName == name then f m :: rest
    else m :: updateFirst name f rest

/-- `MetricCollector::recordMetric<T>` (part_000 lines 41-91): return at
once when not running; look the metric up; auto-register a metric of the
call's kind `T` when absent (logging and returning if that throws); then
record through `dynamic_cast<TypedMetric<T>*>`, which silently does
nothing on a kind mismatch. Returns the new state and the log lines. -/
def MetricCollector.recordMetric (s : Sample) (name : String)
    (st : CollectorState) : CollectorState × List String :=
  if st.running = false then (st, [])
  else
    match lookupMetric name st.metrics with
    | some _ => ({ st with metrics := updateFirst name (s.tryRecord) st.metrics }, [])
    | none =>
      match MetricCollector.registerMetric s.kind name st with
      | (st', none) =>
        ({ st' with metrics := updateFirst name (s.tryRecord) st'.metrics }, [])
      | (st', some msg) =>
        (st', ["Failed to auto-register metric " ++ name ++ ": " ++ msg])

/-- The entry-building loop of `collectCurrentMetrics` (part_000
lines 150-166): for every metric take `getAccumulatedValue()` and keep an
entry exactly when the returned pointer is non-null
(`if (accumulated_value)`). -/
def collectEntries (ts : String) (ms : List AnyMetric) : List MetricEntry :=
  ms.filterMap fun m =>
    (m.getAccumulatedValue).map fun v =>
      { timestamp := ts, name := m.getName, value := v }

/-- `MetricCollector::collectCurrentMetrics` (part_000 lines 145-186):
build the entries under the metrics mutex; if non-empty, write them; only
when the write returns without throwing, reset every metric. A writer
failure is caught and leaves all metrics untouched. Returns the new state
and the lines appended to the sink. -/
def MetricCollector.collectCurrentMetrics (isOpen : Bool) (ts : String)
    (st : CollectorState) : CollectorState × List String :=
  let entries := collectEntries ts st.metrics
  if entries.isEmpty then (st, [])
  else
    match MetricWriter.writeMetrics isOpen entries with
    | .ok out => ({ st with metrics := st.metrics.map AnyMetric.reset }, out.1)
    | .error _ => (st, [])

/-- `MetricRegistry` state (MetricUtilities.h lines 42-77): a name-keyed
map, modelled as an association list. -/
structure MetricRegistry where
  metrics : List (String × AnyMetric)
deriving DecidableEq

/-- `MetricRegistry::registerMetric` (MetricUtilities.cpp lines 46-58):
validate the name first (throwing an invalid-name error), then fail on a
duplicate, otherwise insert. Both failures leave the map untouched. -/
def MetricRegistry.registerMetric (name : String) (metric : AnyMetric)
    (reg : MetricRegistry) : MetricRegistry × Option String :=
  if MetricNameValidator.isValidName name = false then
    (reg, some ("Invalid metric name: " ++ name))
  else if reg.metrics.any (fun p => p.1 == name) then
    (reg, some ("Metric already registered: " ++ name))
  else
    ({ metrics := reg.metrics ++ [(name, metric)] }, none)

/-- One flush cycle of `collectCurrentMetrics` seen by a single fractional
metric, with producer interleavings made explicit: `pre` records land
before the snapshot, `mid` records land between the snapshot (taken under
the metrics mutex) and the reset (taken under the same mutex only after
the writer call returns), `post` records land after the reset. Each listed
operation is atomic — that is the locking granularity of the source. -/
def flushCycleInterleaved (pre mid post : List ℚ) (m : TypedMetric ℚ) :
    Option (TypedMetricValue ℚ) × TypedMetric ℚ :=
  let m1 := m.recordList pre
  let snap := m1.getAccumulatedValueQ
  let m2 := m1.recordList mid
  let m3 := m2.reset
  (snap, m3.recordList post)

/-! ## Helper lemmas -/

lemma newMetric_getName (k : MKind) (name : String) :
    (newMetric k name).getName = name := by
  cases k <;> rfl

lemma mkCpp_getValueQ (v : ℚ) : (TypedMetricValue.mkCpp v).getValueQ = v := by
  by_cases h : v = 0 <;>
    simp [TypedMetricValue.mkCpp, TypedMetricValue.getValueQ, h]

lemma mkCpp_getValueZ (v : ℤ) : (TypedMetricValue.mkCpp v).getValueZ = v := by
  by_cases h : v = 0 <;>
    simp [TypedMetricValue.mkCpp, TypedMetricValue.getValueZ, h, Int.tdiv_one]

lemma TypedMetric.recordList_eq {α : Type} [AddCommMonoid α]
    (m : TypedMetric α) (vs : List α) :
    m.recordList vs =
      { name := m.name, accumulated := m.accumulated + vs.sum,
        count := m.count + vs.length } := by
  induction vs generalizing m with
  | nil => simp [TypedMetric.recordList]
  | cons v rest ih =>
    have h1 : m.recordList (v :: rest) = (m.recordValue v).recordList rest := rfl
    rw [h1, ih]
    simp [TypedMetric.recordValue, add_assoc]
    omega

lemma tryRecord_noop_of_incompatible (s : Sample) (m : AnyMetric)
    (hc : s.compatible m = false) : s.tryRecord m = m := by
  cases s <;> cases m <;> simp_all [Sample.compatible, Sample.tryRecord]

lemma updateFirst_noop_of_fixed (name : String) (f : AnyMetric → AnyMetric)
    (ms : List AnyMetric) (m : AnyMetric)
    (hf : lookupMetric name ms = some m) (hfm : f m = m) :
    updateFirst name f ms = ms := by
  induction ms with
  | nil => simp [lookupMetric] at hf
  | cons a rest ih =>
    simp only [lookupMetric] at hf ih
    by_cases hb : (a.getName == name) = true
    · have hfc : List.find? (fun x => x.getName == name) (a :: rest) = some a :=
        List.find?_cons_of_pos rest hb
      rw [hfc] at hf
      have ham : a = m := by injection hf
      subst ham
      simp [updateFirst, hb, hfm]
    · have hfc : List.find? (fun x => x.getName == name) (a :: rest) =
          List.find? (fun x => x.getName == name) rest :=
        List.find?_cons_of_neg rest (by simpa using hb)
      rw [hfc] at hf
      have hrest : updateFirst name f rest = rest := ih hf
      simp [updateFirst, hb, hrest]

lemma writeLoop_fst (entries : List MetricEntry) :
    (writeLoop entries).1 = entries.filterMap serializeEntry := by
  induction entries with
  | nil => rfl
  | cons e rest ih =>
    cases hse : serializeEntry e <;> simp [writeLoop, hse, ih]

lemma writeLoop_snd_mem (entries : List MetricEntry) (e : MetricEntry)
    (he : e ∈ entries) (hn : serializeEntry e = none) :
    ("Error formatting metric entry " ++ e.name) ∈ (writeLoop entries).2 := by
  induction entries with
  | nil => simp at he
  | cons a rest ih =>
    rcases List.mem_cons.mp he with rfl | hmem
    · simp [writeLoop, hn]
    · cases hsa : serializeEntry a <;> simp [writeLoop, hsa, ih hmem]

/-! ## Claims -/

/-- C5: registering a metric under a name that is already registered fails
with a name-conflict error on the second attempt, and the first
registration's metric (its identity and accumulated state, part of the
returned state) is unaffected: the second call returns the state of the
first registration unchanged. -/
theorem c5_duplicate_registration_conflict (k k' : MKind) (name : String)
    (st st' : CollectorState)
    (h : MetricCollector.registerMetric k name st = (st', none)) :
    MetricCollector.registerMetric k' name st' =
      (st', some ("Metric already registered: " ++ name)) := by
  unfold MetricCollector.registerMetric at h ⊢
  by_cases hc : st.metrics.any (fun m => m.getName == name)
  · simp [hc] at h
  · simp only [hc, Bool.false_eq_true, if_false, Prod.mk.injEq] at h
    obtain ⟨hst, -⟩ := h
    subst hst
    simp [List.any_append, newMetric_getName, hc]

/-- Witness for C5 at a concrete input: registering `"HTTP"` as an `int`
metric succeeds, and a second registration (even with a different kind)
fails with the conflict error while leaving the state unchanged. -/
theorem c5_witness :
    MetricCollector.registerMetric .mDouble "HTTP"
        ⟨[AnyMetric.intM ⟨"HTTP", 0, 0⟩], true⟩ =
      (⟨[AnyMetric.intM ⟨"HTTP", 0, 0⟩], true⟩,
        some ("Metric already registered: " ++ "HTTP")) :=
  c5_duplicate_registration_conflict .mInt .mDouble "HTTP" ⟨[], true⟩
    ⟨[AnyMetric.intM ⟨"HTTP", 0, 0⟩], true⟩ rfl

/-- C6 counterexample: the claim says no metric is ever stored under an
invalid name, but `MetricCollector::registerMetric` performs no name
validation: registering the empty name (invalid) through the collector
succeeds and stores a metric named `""`. -/
theorem c6_collector_accepts_invalid_name :
    MetricNameValidator.isValidName "" = false
    ∧ MetricCollector.registerMetric .mDouble "" ⟨[], true⟩ =
        (⟨[AnyMetric.doubleM ⟨"", 0, 0⟩], true⟩, none) :=
  ⟨rfl, rfl⟩

/-- C6 amended: name validation lives only in `MetricRegistry`: there, a
malformed name fails with an invalid-name error before insertion and the
registry is unchanged. -/
theorem c6_registry_rejects_invalid_name (name : String) (metric : AnyMetric)
    (reg : MetricRegistry) (h : MetricNameValidator.isValidName name = false) :
    MetricRegistry.registerMetric name metric reg =
      (reg, some ("Invalid metric name: " ++ name)) := by
  simp [MetricRegistry.registerMetric, h]

/-- Witness for the amended C6 at a concrete input: the registry rejects
the empty name with the invalid-name error and stays empty. -/
theorem c6_witness :
    MetricRegistry.registerMetric "" (newMetric .mInt "x") ⟨[]⟩ =
      (⟨[]⟩, some ("Invalid metric name: " ++ "")) :=
  c6_registry_rejects_invalid_name "" (newMetric .mInt "x") ⟨[]⟩ rfl

/-- C7 counterexample: the claim says an incompatible-kind record call is
dropped *and logged*; recording an `int` sample into the `double` metric
`"CPU"` while running is indeed dropped with the state unchanged, but the
log output is empty — the failed `dynamic_cast` branch has no logging
(part_000 lines 83-86), so nothing is logged. -/
theorem c7_incompatible_record_not_logged :
    MetricCollector.recordMetric (Sample.sInt 5) "CPU"
        ⟨[AnyMetric.doubleM ⟨"CPU", 0, 0⟩], true⟩ =
      (⟨[AnyMetric.doubleM ⟨"CPU", 0, 0⟩], true⟩, []) := rfl

/-- C7 amended: while the collector is Running, a record call whose value
kind is incompatible with the named metric's established kind is dropped
silently: no error propagates to the caller, nothing is logged, and the
metric's accumulated state (indeed the whole collector state) is
unchanged. -/
theorem c7_incompatible_record_dropped_silently (s : Sample) (name : String)
    (st : CollectorState) (m : AnyMetric) (h : st.running = true)
    (hfind : lookupMetric name st.metrics = some m)
    (hc : s.compatible m = false) :
    MetricCollector.recordMetric s name st = (st, []) := by
  obtain ⟨ms, r⟩ := st
  have hr : r = true := h
  subst hr
  have hup : updateFirst name (s.tryRecord) ms = ms :=
    updateFirst_noop_of_fixed name _ ms m hfind
      (tryRecord_noop_of_incompatible s m hc)
  unfold MetricCollector.recordMetric
  simp only [show lookupMetric name (CollectorState.mk ms true).metrics =
    some m from hfind]
  simp [hup]

/-- Witness for the amended C7 at a concrete input: an `int` sample sent
to the running `double` metric `"CPU"` leaves the state unchanged and
produces no log line. -/
theorem c7_witness :
    MetricCollector.recordMetric (Sample.sLong 7) "CPU"
        ⟨[AnyMetric.floatM ⟨"CPU", 0, 2⟩], true⟩ =
      (⟨[AnyMetric.floatM ⟨"CPU", 0, 2⟩], true⟩, []) :=
  c7_incompatible_record_dropped_silently (Sample.sLong 7) "CPU"
    ⟨[AnyMetric.floatM ⟨"CPU", 0, 2⟩], true⟩ (AnyMetric.floatM ⟨"CPU", 0, 2⟩)
    rfl rfl rfl

/-- C8: a record call made while the collector is Idle (`running_` false)
is silently dropped: it returns without error or log output and leaves the
whole collector state — every metric's accumulated state and the set of
registered metrics — unchanged. -/
theorem c8_record_while_idle_is_noop (s : Sample) (name : String)
    (st : CollectorState) (h : st.running = false) :
    MetricCollector.recordMetric s name st = (st, []) := by
  simp [MetricCollector.recordMetric, h]

/-- Witness for C8 at a concrete input: recording on an idle collector
that holds an `int` metric with accumulated state `(3, 1)` changes
nothing. -/
theorem c8_witness :
    MetricCollector.recordMetric (Sample.sInt 7) "HTTP"
        ⟨[AnyMetric.intM ⟨"HTTP", 3, 1⟩], false⟩ =
      (⟨[AnyMetric.intM ⟨"HTTP", 3, 1⟩], false⟩, []) :=
  c8_record_while_idle_is_noop (Sample.sInt 7) "HTTP"
    ⟨[AnyMetric.intM ⟨"HTTP", 3, 1⟩], false⟩ rfl

/-- C2: the value produced at flush is determined by the metric's numeric
kind: for a fractional kind it is the arithmetic mean of the values
recorded since the last reset (exact on the rational model, hence within
floating rounding on the source's doubles), for an integral kind it is the
exact sum; and after the flush's reset the accumulator is empty (total and
count zero, i.e. a fresh metric). -/
theorem c2_reduction_mean_for_fractional_sum_for_integral
    (name₁ name₂ : String) (vs : List ℚ) (ws : List ℤ) (h : vs ≠ []) :
    (((TypedMetric.mkFresh name₁).recordList vs).getAccumulatedValueQ).map
        TypedMetricValue.getValueQ = some (vs.sum / (vs.length : ℚ))
    ∧ (((TypedMetric.mkFresh name₂).recordList ws).getAccumulatedValueZ).map
        TypedMetricValue.getValueZ = some ws.sum
    ∧ ((TypedMetric.mkFresh name₁).recordList vs).reset =
        TypedMetric.mkFresh name₁
    ∧ ((TypedMetric.mkFresh name₂).recordList ws).reset =
        TypedMetric.mkFresh name₂ := by
  have hq : (TypedMetric.mkFresh name₁).recordList vs =
      { name := name₁, accumulated := vs.sum, count := vs.length } := by
    rw [TypedMetric.recordList_eq]
    simp [TypedMetric.mkFresh]
  have hz : (TypedMetric.mkFresh name₂).recordList ws =
      { name := name₂, accumulated := ws.sum, count := ws.length } := by
    rw [TypedMetric.recordList_eq]
    simp [TypedMetric.mkFresh]
  refine ⟨?_, ?_, ?_, ?_⟩
  · rw [hq]
    have hlen : vs.length ≠ 0 := fun hl => h (List.length_eq_zero.mp hl)
    simp [TypedMetric.getAccumulatedValueQ, hlen, mkCpp_getValueQ]
  · rw [hz]
    by_cases hw : ws = []
    · subst hw
      simp [TypedMetric.getAccumulatedValueZ, mkCpp_getValueZ]
    · have hlw : ws.length ≠ 0 := fun hl => hw (List.length_eq_zero.mp hl)
      simp [TypedMetric.getAccumulatedValueZ, hlw, mkCpp_getValueZ]
  · rw [hq]; simp [TypedMetric.reset, TypedMetric.mkFresh]
  · rw [hz]; simp [TypedMetric.reset, TypedMetric.mkFresh]

/-- Witness for C2 at concrete inputs: recording 1 and 2 on a fractional
metric flushes their mean, recording 10 and 20 on an integral metric
flushes their sum 30, and both accumulators are empty afterwards. -/
theorem c2_witness :
    ([(1:ℚ), 2] ≠ [])
    ∧ ((((TypedMetric.mkFresh "CPU").recordList [(1:ℚ), 2]).getAccumulatedValueQ).map
          TypedMetricValue.getValueQ =
            some ([(1:ℚ), 2].sum / (([(1:ℚ), 2].length : Nat) : ℚ))
        ∧ (((TypedMetric.mkFresh "HTTP").recordList [(10:ℤ), 20]).getAccumulatedValueZ).map
          TypedMetricValue.getValueZ = some [(10:ℤ), 20].sum
        ∧ ((TypedMetric.mkFresh "CPU").recordList [(1:ℚ), 2]).reset =
            TypedMetric.mkFresh "CPU"
        ∧ ((TypedMetric.mkFresh "HTTP").recordList [(10:ℤ), 20]).reset =
            TypedMetric.mkFresh "HTTP") :=
  ⟨by simp,
    c2_reduction_mean_for_fractional_sum_for_integral "CPU" "HTTP"
      [(1:ℚ), 2] [(10:ℤ), 20] (by simp)⟩

/-- C3: in a flush cycle, accumulators are reset only after the write
returns successfully: with the sink unable to accept the write the cycle
leaves the whole collector state (every accumulated counter) intact and
appends nothing, while a successful write resets every metric. -/
theorem c3_reset_only_after_successful_write (ts : String)
    (st : CollectorState) (h : collectEntries ts st.metrics ≠ []) :
    MetricCollector.collectCurrentMetrics false ts st = (st, [])
    ∧ (MetricCollector.collectCurrentMetrics true ts st).1.metrics =
        st.metrics.map AnyMetric.reset := by
  have hne : (collectEntries ts st.metrics).isEmpty = false := by
    simpa [List.isEmpty_iff] using h
  constructor
  · simp [MetricCollector.collectCurrentMetrics, hne, MetricWriter.writeMetrics]
  · simp [MetricCollector.collectCurrentMetrics, hne, MetricWriter.writeMetrics]

/-- Witness for C3 at a concrete input: an `int` metric holding 30 over
two samples survives a failed write untouched and is reset by a
successful one. -/
theorem c3_witness :
    collectEntries "T" [AnyMetric.intM ⟨"HTTP", 30, 2⟩] ≠ []
    ∧ MetricCollector.collectCurrentMetrics false "T"
        ⟨[AnyMetric.intM ⟨"HTTP", 30, 2⟩], true⟩ =
          (⟨[AnyMetric.intM ⟨"HTTP", 30, 2⟩], true⟩, [])
    ∧ (MetricCollector.collectCurrentMetrics true "T"
        ⟨[AnyMetric.intM ⟨"HTTP", 30, 2⟩], true⟩).1.metrics =
          [AnyMetric.intM ⟨"HTTP", 30, 2⟩].map AnyMetric.reset :=
  ⟨by decide,
    (c3_reset_only_after_successful_write "T"
      ⟨[AnyMetric.intM ⟨"HTTP", 30, 2⟩], true⟩ (by decide)).1,
    (c3_reset_only_after_successful_write "T"
      ⟨[AnyMetric.intM ⟨"HTTP", 30, 2⟩], true⟩ (by decide)).2⟩

/-- C4 counterexample: the claim says every record call's contribution
lands entirely in a given snapshot or entirely in the accumulator after
it, never lost. In the source, the snapshot and the reset are two separate
critical sections with the writer call between them, so a `recordValue`
scheduled between them is erased: starting from a fresh metric, recording
5 between the snapshot and the reset yields a zero-sample snapshot AND a
fresh (empty) post-cycle accumulator — the recorded 5 appears in neither,
even though 5 is not zero. -/
theorem c4_record_between_snapshot_and_reset_is_lost :
    flushCycleInterleaved [] [(5:ℚ)] [] (TypedMetric.mkFresh "CPU") =
      (some ⟨0, 0⟩, TypedMetric.mkFresh "CPU")
    ∧ ([(5:ℚ)].sum ≠ 0) := by
  constructor
  · simp [flushCycleInterleaved, TypedMetric.recordList, TypedMetric.mkFresh,
      TypedMetric.getAccumulatedValueQ, TypedMetricValue.mkCpp,
      TypedMetric.reset, TypedMetric.recordValue]
  · norm_num

/-- C4 amended: each individual operation (`recordValue`,
`getAccumulatedValue`, `reset`) is its own critical section and is atomic,
so records that complete before the snapshot are fully reflected in the
snapshot's reduced value and records after the reset are fully held in the
accumulator; but the snapshot and the reset of a cycle are separate
critical sections, and any record landing between them is lost — the
post-cycle accumulator holds exactly the post-reset records, with the
in-between records appearing nowhere. -/
theorem c4_snapshot_and_reset_separate_sections (name : String)
    (pre mid post : List ℚ) :
    ((flushCycleInterleaved pre mid post (TypedMetric.mkFresh name)).1.map
        fun tv => tv.getValueQ * (pre.length : ℚ)) = some pre.sum
    ∧ (flushCycleInterleaved pre mid post
        (TypedMetric.mkFresh name)).2.accumulated = post.sum
    ∧ (flushCycleInterleaved pre mid post
        (TypedMetric.mkFresh name)).2.count = post.length := by
  unfold flushCycleInterleaved
  simp only [TypedMetric.recordList_eq, TypedMetric.mkFresh,
    TypedMetric.reset, zero_add, Nat.zero_add]
  refine ⟨?_, by simp, by simp⟩
  by_cases hp : pre.length = 0
  · have hnil : pre = [] := List.length_eq_zero.mp hp
    subst hnil
    simp [TypedMetric.getAccumulatedValueQ, mkCpp_getValueQ]
  · simp [TypedMetric.getAccumulatedValueQ, hp, mkCpp_getValueQ]

/-- C9: for a non-empty batch handed to `writeMetrics` with the sink open,
the call succeeds with the sink-level flush performed; an entry whose
serialization fails is skipped with a log line emitted, and every entry
that serializes is still written. -/
theorem c9_write_skips_bad_entry_keeps_rest_and_flushes
    (entries : List MetricEntry) (h : entries ≠ []) :
    ∃ lines logs,
      MetricWriter.writeMetrics true entries = .ok (lines, logs, true)
      ∧ lines = entries.filterMap serializeEntry
      ∧ (∀ e ∈ entries, serializeEntry e = none →
          ("Error formatting metric entry " ++ e.name) ∈ logs)
      ∧ (∀ e ∈ entries, ∀ l, serializeEntry e = some l → l ∈ lines) := by
  refine ⟨(writeLoop entries).1, (writeLoop entries).2, ?_,
    writeLoop_fst entries, ?_, ?_⟩
  · have hne : entries.isEmpty = false := by simpa [List.isEmpty_iff] using h
    simp [MetricWriter.writeMetrics, hne]
  · intro e he hn
    exact writeLoop_snd_mem entries e he hn
  · intro e he l hl
    rw [writeLoop_fst]
    exact List.mem_filterMap.mpr ⟨e, he, hl⟩

/-- Witness for C9 at a concrete batch: three entries, the middle one
carrying the (invalid) empty name whose serialization fails. -/
theorem c9_witness :
    ([⟨"T", "CPU", AnyValue.qVal ⟨0, 0⟩⟩, ⟨"T", "", AnyValue.zVal ⟨3, 1⟩⟩,
        ⟨"T", "HTTP", AnyValue.zVal ⟨30, 1⟩⟩] : List MetricEntry) ≠ []
    ∧ ∃ lines logs,
      MetricWriter.writeMetrics true
          [⟨"T", "CPU", AnyValue.qVal ⟨0, 0⟩⟩, ⟨"T", "", AnyValue.zVal ⟨3, 1⟩⟩,
            ⟨"T", "HTTP", AnyValue.zVal ⟨30, 1⟩⟩] = .ok (lines, logs, true)
      ∧ lines = [⟨"T", "CPU", AnyValue.qVal ⟨0, 0⟩⟩,
          ⟨"T", "", AnyValue.zVal ⟨3, 1⟩⟩,
          ⟨"T", "HTTP", AnyValue.zVal ⟨30, 1⟩⟩].filterMap serializeEntry
      ∧ (∀ e ∈ ([⟨"T", "CPU", AnyValue.qVal ⟨0, 0⟩⟩,
          ⟨"T", "", AnyValue.zVal ⟨3, 1⟩⟩,
          ⟨"T", "HTTP", AnyValue.zVal ⟨30, 1⟩⟩] : List MetricEntry),
          serializeEntry e = none →
            ("Error formatting metric entry " ++ e.name) ∈ logs)
      ∧ (∀ e ∈ ([⟨"T", "CPU", AnyValue.qVal ⟨0, 0⟩⟩,
          ⟨"T", "", AnyValue.zVal ⟨3, 1⟩⟩,
          ⟨"T", "HTTP", AnyValue.zVal ⟨30, 1⟩⟩] : List MetricEntry),
          ∀ l, serializeEntry e = some l → l ∈ lines) :=
  ⟨by simp,
    c9_write_skips_bad_entry_keeps_rest_and_flushes
      [⟨"T", "CPU", AnyValue.qVal ⟨0, 0⟩⟩, ⟨"T", "", AnyValue.zVal ⟨3, 1⟩⟩,
        ⟨"T", "HTTP", AnyValue.zVal ⟨30, 1⟩⟩] (by simp)⟩

/-- C10: for a fractional metric whose reduced value at a flush is exactly
zero while samples were recorded, the snapshot rebuilt through the
`TypedMetricValue` constructor carries sample count 0 (the constructor
zeroes the count when the value equals the type's zero), so `toString`
renders the plain `"0"`, not the fixed 2-decimal `"0.00"`. -/
theorem c10_zero_mean_renders_plain_zero (m : TypedMetric ℚ)
    (h : m.count ≠ 0) (h0 : m.accumulated = 0) :
    m.getAccumulatedValueQ = some ⟨0, 0⟩
    ∧ m.getAccumulatedValueQ.map TypedMetricValue.toStringQ = some "0"
    ∧ m.getAccumulatedValueQ.map TypedMetricValue.toStringQ ≠ some "0.00" := by
  have h1 : m.getAccumulatedValueQ = some ⟨0, 0⟩ := by
    simp [TypedMetric.getAccumulatedValueQ, h, h0, TypedMetricValue.mkCpp]
  refine ⟨h1, ?_, ?_⟩ <;> simp [h1, TypedMetricValue.toStringQ]

/-- Witness for C10 at a concrete input: two recorded samples of 0 give a
zero mean over a nonzero count; the flushed snapshot has count 0 and
renders as `"0"`. -/
theorem c10_witness :
    ((TypedMetric.mkFresh "CPU").recordList [(0:ℚ), 0]).count ≠ 0
    ∧ ((TypedMetric.mkFresh "CPU").recordList [(0:ℚ), 0]).accumulated = 0
    ∧ ((TypedMetric.mkFresh "CPU").recordList [(0:ℚ), 0]).getAccumulatedValueQ =
        some ⟨0, 0⟩
    ∧ (((TypedMetric.mkFresh "CPU").recordList [(0:ℚ), 0]).getAccumulatedValueQ).map
        TypedMetricValue.toStringQ = some "0"
    ∧ (((TypedMetric.mkFresh "CPU").recordList [(0:ℚ), 0]).getAccumulatedValueQ).map
        TypedMetricValue.toStringQ ≠ some "0.00" := by
  have h : ((TypedMetric.mkFresh "CPU").recordList [(0:ℚ), 0]).count ≠ 0 := by
    simp [TypedMetric.recordList_eq, TypedMetric.mkFresh]
  have h0 : ((TypedMetric.mkFresh "CPU").recordList [(0:ℚ), 0]).accumulated = 0 := by
    simp [TypedMetric.recordList_eq, TypedMetric.mkFresh]
  exact ⟨h, h0,
    (c10_zero_mean_renders_plain_zero _ h h0).1,
    (c10_zero_mean_renders_plain_zero _ h h0).2.1,
    (c10_zero_mean_renders_plain_zero _ h h0).2.2⟩

/-- C1 (code bug): the claim — and the source's own comment, "Only write
if there's actual data" — say a metric with zero samples since its last
reset produces no entry in the cycle's output. But `getAccumulatedValue`
returns a freshly built non-null pointer in every branch, so the
`if (accumulated_value)` test always passes: a fresh metric with zero
samples still produces an entry, and the cycle's sink output contains a
line for it (rendered `"0"`). -/
theorem c1_zero_sample_metric_still_produces_entry :
    collectEntries "2025-06-01 15:00:01.653"
        [AnyMetric.doubleM (TypedMetric.mkFresh "CPU")] =
      [{ timestamp := "2025-06-01 15:00:01.653", name := "CPU",
         value := AnyValue.qVal ⟨0, 0⟩ }]
    ∧ (MetricCollector.collectCurrentMetrics true "2025-06-01 15:00:01.653"
        ⟨[AnyMetric.doubleM (TypedMetric.mkFresh "CPU")], true⟩).2 =
      ["2025-06-01 15:00:01.653 \"CPU\" 0"] := by
  have h1 : collectEntries "2025-06-01 15:00:01.653"
      [AnyMetric.doubleM (TypedMetric.mkFresh "CPU")] =
      [{ timestamp := "2025-06-01 15:00:01.653", name := "CPU",
         value := AnyValue.qVal ⟨0, 0⟩ }] := by
    simp [collectEntries, AnyMetric.getAccumulatedValue, AnyMetric.getName,
      TypedMetric.mkFresh, TypedMetric.getAccumulatedValueQ,
      TypedMetricValue.mkCpp]
  have h2 : serializeEntry
      { timestamp := "2025-06-01 15:00:01.653", name := "CPU",
        value := AnyValue.qVal ⟨0, 0⟩ } =
      some "2025-06-01 15:00:01.653 \"CPU\" 0" := rfl
  have h3 : TypedMetricValue.mkCpp (0:ℚ) = ⟨0, 0⟩ := by
    simp [TypedMetricValue.mkCpp]
  have h1' : collectEntries "2025-06-01 15:00:01.653"
      [AnyMetric.doubleM { name := "CPU", accumulated := 0, count := 0 }] =
      [{ timestamp := "2025-06-01 15:00:01.653", name := "CPU",
         value := AnyValue.qVal ⟨0, 0⟩ }] := by
    simpa [TypedMetric.mkFresh] using h1
  refine ⟨h1, ?_⟩
  simp [MetricCollector.collectCurrentMetrics, h1', MetricWriter.writeMetrics,
    writeLoop, AnyMetric.getName, TypedMetric.mkFresh, h3, h2]

end MetricsSystem
